import Mathlib

/-!
Verification development for the rusteroids simulation core
(src/main.rs, src/mechanics.rs, src/asteroid.rs, src/player.rs).

Shallow embedding conventions:
- f32 coordinates, speeds and times are embedded as rationals; the one
  place the source takes a square root (`Vec3::distance`) is embedded
  faithfully over the reals as `distance`, and every executable collision
  test is the squared-comparison form, proved equivalent to the real
  `distance` form in `bullet_hits_iff` and `player_hits_iff`.
- All gameplay entities live at z = 0 (the player spawns at the origin,
  bullets inherit the player's z, asteroids are spawned with z = 0), so
  positions are 2D pairs.
- A random angle drawn by `rng.gen_range(0.0..2*PI)` enters the source
  only through the pair (angle.cos(), angle.sin()); the embedding takes
  that unit direction vector itself as the random sample, supplied by an
  oracle `dirs : Nat -> Rat x Rat`.
- Bevy `Commands` are applied at the end of the system that issued them;
  each system below is a total function on the world state.
-/

/-- Squared Euclidean distance between two 2D points, used as the
executable form of the collision comparisons. -/
def dist_sq (p q : ℚ × ℚ) : ℚ :=
  (p.1 - q.1) ^ 2 + (p.2 - q.2) ^ 2

/-- The comparison `a.distance(b) < c` on gameplay positions, the
embedding of bevy `Vec3::distance` followed by the source's strict
comparison (z components are always 0). -/
def distance_lt (p q : ℚ × ℚ) (c : ℚ) : Prop :=
  Real.sqrt (((p.1 - q.1 : ℚ) : ℝ) ^ 2 + ((p.2 - q.2 : ℚ) : ℝ) ^ 2) < (c : ℝ)

/-- The comparison `c < a.distance(b)` on gameplay positions, the
embedding of bevy `Vec3::distance` followed by the source's strict
comparison the other way around. -/
def distance_gt (p q : ℚ × ℚ) (c : ℚ) : Prop :=
  (c : ℝ) < Real.sqrt (((p.1 - q.1 : ℚ) : ℝ) ^ 2 + ((p.2 - q.2 : ℚ) : ℝ) ^ 2)

/-- The asteroid size classes, from `enum AsteroidSize` in src/asteroid.rs. -/
inductive AsteroidSize
  | Large
  | Medium
  | Small
deriving DecidableEq

/-- ASTEROID_LARGE_SIZE from src/asteroid.rs. -/
def ASTEROID_LARGE_SIZE : ℚ := 80

/-- ASTEROID_MEDIUM_SIZE from src/asteroid.rs. -/
def ASTEROID_MEDIUM_SIZE : ℚ := 40

/-- ASTEROID_SMALL_SIZE from src/asteroid.rs. -/
def ASTEROID_SMALL_SIZE : ℚ := 20

/-- ASTEROID_LARGE_SPEED from src/asteroid.rs. -/
def ASTEROID_LARGE_SPEED : ℚ := 50

/-- ASTEROID_MEDIUM_SPEED from src/asteroid.rs. -/
def ASTEROID_MEDIUM_SPEED : ℚ := 75

/-- ASTEROID_SMALL_SPEED from src/asteroid.rs. -/
def ASTEROID_SMALL_SPEED : ℚ := 100

/-- INITIAL_ASTEROIDS from src/asteroid.rs. -/
def INITIAL_ASTEROIDS : ℕ := 4

/-- MIN_SPAWN_DISTANCE from src/asteroid.rs. -/
def MIN_SPAWN_DISTANCE : ℚ := 100

/-- BULLET_SPEED from src/mechanics.rs. -/
def BULLET_SPEED : ℚ := 500

/-- BULLET_LIFETIME from src/mechanics.rs. -/
def BULLET_LIFETIME : ℚ := 2

/-- The per-class collision diameter used by both collision systems in
src/mechanics.rs (the `match asteroid_size` block with literals
80.0 / 40.0 / 20.0). -/
def asteroid_current_size : AsteroidSize → ℚ
  | AsteroidSize.Large => 80
  | AsteroidSize.Medium => 40
  | AsteroidSize.Small => 20

/-- The game state machine from `enum GameState` in src/main.rs. -/
inductive GameState
  | Loading
  | Playing
  | GameOver
deriving DecidableEq

/-- Bevy one-shot timer as used for bullet lifetimes: elapsed time is
accumulated and clamped at the duration. -/
structure Timer where
  duration : ℚ
  elapsed : ℚ
deriving DecidableEq

/-- Timer::tick of a non-repeating bevy timer: advance `elapsed` by the
frame delta, clamping at `duration`. -/
def Timer.tick (t : Timer) (dt : ℚ) : Timer :=
  ⟨t.duration, min (t.elapsed + dt) t.duration⟩

/-- Timer::finished of a non-repeating bevy timer. -/
def Timer.finished (t : Timer) : Bool :=
  decide (t.duration ≤ t.elapsed)

/-- Timer::remaining_secs: time left on the timer. -/
def Timer.remaining (t : Timer) : ℚ :=
  t.duration - t.elapsed

/-- The player entity: translation, PlayerVelocity, and the unit forward
vector `rotation * Vec3::Y` that src/mechanics.rs derives from the
player's rotation when firing. -/
structure PlayerEnt where
  pos : ℚ × ℚ
  vel : ℚ × ℚ
  facing : ℚ × ℚ
deriving DecidableEq

/-- An asteroid entity: bevy Entity id, Transform translation,
AsteroidVelocity and AsteroidSize components. -/
structure AsteroidEnt where
  id : ℕ
  pos : ℚ × ℚ
  vel : ℚ × ℚ
  size : AsteroidSize
deriving DecidableEq

/-- A bullet entity: bevy Entity id, Transform translation,
BulletVelocity and BulletLifetime components. -/
structure BulletEnt where
  id : ℕ
  pos : ℚ × ℚ
  vel : ℚ × ℚ
  lifetime : Timer
deriving DecidableEq

/-- The play-area bounds read from the primary bevy Window each frame. -/
structure Window where
  width : ℚ
  height : ℚ
deriving DecidableEq

/-- The simulation state: GameState, the Score resource, the entity
store (at most one player, the asteroid and bullet lists), and the next
fresh bevy entity id. -/
structure World where
  state : GameState
  score : ℕ
  player : Option PlayerEnt
  asteroids : List AsteroidEnt
  bullets : List BulletEnt
  nextId : ℕ
deriving DecidableEq

/-- The bullet-asteroid overlap test of `bullet_asteroid_collision`
(src/mechanics.rs lines 129-140): distance strictly below
`bullet_size / 2.0 + asteroid_current_size / 2.0` with
`let bullet_size = 10.0`; stated executably in the equivalent squared
form (see `bullet_hits_iff`). -/
def bullet_hits (b a : ℚ × ℚ) (s : AsteroidSize) : Bool :=
  decide (dist_sq b a < (10 / 2 + asteroid_current_size s / 2) ^ 2)

/-- The player-asteroid overlap test of `player_asteroid_collision`
(src/mechanics.rs lines 177-189): distance strictly below
`player_size / 2.0 + asteroid_current_size / 2.0` with
`let player_size = 50.0`; stated executably in the equivalent squared
form (see `player_hits_iff`). -/
def player_hits (p a : ℚ × ℚ) (s : AsteroidSize) : Bool :=
  decide (dist_sq p a < (50 / 2 + asteroid_current_size s / 2) ^ 2)

/-- spawn_bullet (src/mechanics.rs lines 22-45): on an edge-triggered
fire input, if a player exists, spawn one bullet at the player position
offset 20 units along the forward vector, with velocity forward times
BULLET_SPEED and a fresh BULLET_LIFETIME timer; with no player the
system returns without effect. -/
def spawn_bullet (fired : Bool) (w : World) : World :=
  if fired then
    match w.player with
    | none => w
    | some p =>
        { w with
          bullets := w.bullets ++
            [⟨w.nextId,
              (p.pos.1 + p.facing.1 * 20, p.pos.2 + p.facing.2 * 20),
              (p.facing.1 * BULLET_SPEED, p.facing.2 * BULLET_SPEED),
              ⟨BULLET_LIFETIME, 0⟩⟩],
          nextId := w.nextId + 1 }
  else w

/-- move_bullets (src/mechanics.rs lines 47-55): every bullet's
translation advances by its BulletVelocity times the frame delta. -/
def move_bullets (dt : ℚ) (w : World) : World :=
  { w with
    bullets := w.bullets.map fun b =>
      { b with pos := (b.pos.1 + b.vel.1 * dt, b.pos.2 + b.vel.2 * dt) } }

/-- move_asteroids (src/asteroid.rs lines 86-94): every asteroid's
translation advances by its AsteroidVelocity times the frame delta. -/
def move_asteroids (dt : ℚ) (w : World) : World :=
  { w with
    asteroids := w.asteroids.map fun a =>
      { a with pos := (a.pos.1 + a.vel.1 * dt, a.pos.2 + a.vel.2 * dt) } }

/-- despawn_bullets (src/mechanics.rs lines 57-68): tick every bullet's
lifetime timer by the frame delta, then despawn the bullets whose timer
has finished.  The system reads no window and no position. -/
def despawn_bullets (dt : ℚ) (w : World) : World :=
  { w with
    bullets :=
      (w.bullets.map fun b => { b with lifetime := b.lifetime.tick dt }).filter
        fun b => ! b.lifetime.finished }

/-- The per-axis wrap of wrap_around_screen: a coordinate strictly past
the positive half-extent teleports to the negative half-extent, and one
strictly past the negative half-extent teleports to the positive one. -/
def wrap_coord (half c : ℚ) : ℚ :=
  if c > half then -half
  else if c < -half then half
  else c

/-- Both axes of the wrap, applied independently. -/
def wrap_pos (hw hh : ℚ) (p : ℚ × ℚ) : ℚ × ℚ :=
  (wrap_coord hw p.1, wrap_coord hh p.2)

/-- wrap_around_screen (src/mechanics.rs lines 70-95): with a window,
wrap the translation of every entity that is a player or an asteroid
(the query is `Or<(With<Player>, With<Asteroid>)>`, so bullets are
untouched); with no window the system returns without effect. -/
def wrap_around_screen (ow : Option Window) (w : World) : World :=
  match ow with
  | none => w
  | some win =>
      { w with
        player := w.player.map fun p =>
          { p with pos := wrap_pos (win.width / 2) (win.height / 2) p.pos },
        asteroids := w.asteroids.map fun a =>
          { a with pos := wrap_pos (win.width / 2) (win.height / 2) a.pos } }

/-- The out-of-bounds test of despawn_out_of_bounds_bullets: any
coordinate strictly past a half-extent. -/
def out_of_bounds (hw hh : ℚ) (p : ℚ × ℚ) : Bool :=
  decide (p.1 > hw) || decide (p.1 < -hw) || decide (p.2 > hh) || decide (p.2 < -hh)

/-- despawn_out_of_bounds_bullets (src/mechanics.rs lines 97-117): with
a window, despawn every bullet whose translation is outside the play
rectangle; with no window the system returns without effect. -/
def despawn_out_of_bounds_bullets (ow : Option Window) (w : World) : World :=
  match ow with
  | none => w
  | some win =>
      { w with
        bullets := w.bullets.filter fun b =>
          ! out_of_bounds (win.width / 2) (win.height / 2) b.pos }

/-- The fragmentation match block of bullet_asteroid_collision
(src/mechanics.rs lines 145-165), applied to one destroyed asteroid: it
reads only the asteroid's size and translation.  `d1` and `d2` are the
two independently drawn random headings (as unit vectors); a byproduct's
velocity is `Vec2::new(angle.cos() * speed, angle.sin() * speed)`. -/
def destroyed_byproducts (a : AsteroidEnt) (d1 d2 : ℚ × ℚ) :
    List (AsteroidSize × (ℚ × ℚ) × (ℚ × ℚ)) :=
  match a.size with
  | AsteroidSize.Large =>
      [(AsteroidSize.Medium, a.pos, (d1.1 * ASTEROID_MEDIUM_SPEED, d1.2 * ASTEROID_MEDIUM_SPEED)),
       (AsteroidSize.Medium, a.pos, (d2.1 * ASTEROID_MEDIUM_SPEED, d2.2 * ASTEROID_MEDIUM_SPEED))]
  | AsteroidSize.Medium =>
      [(AsteroidSize.Small, a.pos, (d1.1 * ASTEROID_SMALL_SPEED, d1.2 * ASTEROID_SMALL_SPEED)),
       (AsteroidSize.Small, a.pos, (d2.1 * ASTEROID_SMALL_SPEED, d2.2 * ASTEROID_SMALL_SPEED))]
  | AsteroidSize.Small => []

/-- How many random headings one fragmentation event draws from the rng
stream: two for Large and Medium, none for Small. -/
def frag_dirs_consumed : AsteroidSize → ℕ
  | AsteroidSize.Small => 0
  | _ => 2

/-- The overlapping (bullet, asteroid) pairs of the nested loop of
bullet_asteroid_collision, listed as one destroyed-asteroid occurrence
per overlapping pair, in loop order (bullets outer, asteroids inner). -/
def collision_events (bs : List BulletEnt) (asts : List AsteroidEnt) :
    List AsteroidEnt :=
  bs.flatMap fun b => asts.filter fun a => bullet_hits b.pos a.pos a.size

/-- The byproducts spawned by the collision pass: each event consumes
its random headings from the oracle stream in order. -/
def frags_from_events (dirs : ℕ → ℚ × ℚ) :
    List AsteroidEnt → ℕ → List (AsteroidSize × (ℚ × ℚ) × (ℚ × ℚ))
  | [], _ => []
  | a :: rest, k =>
      destroyed_byproducts a (dirs k) (dirs (k + 1)) ++
        frags_from_events dirs rest (k + frag_dirs_consumed a.size)

/-- Fresh bevy entity ids for the spawned byproducts. -/
def assign_ids : ℕ → List (AsteroidSize × (ℚ × ℚ) × (ℚ × ℚ)) → List AsteroidEnt
  | _, [] => []
  | n, (s, p, v) :: rest => ⟨n, p, v, s⟩ :: assign_ids (n + 1) rest

/-- bullet_asteroid_collision (src/mechanics.rs lines 119-169): with a
window, despawn every bullet overlapping some asteroid and every
asteroid overlapping some bullet, and spawn the fragmentation byproducts
of each overlapping pair; with no window the system returns without
effect.  The Score resource is not touched. -/
def bullet_asteroid_collision (ow : Option Window) (dirs : ℕ → ℚ × ℚ)
    (w : World) : World :=
  match ow with
  | none => w
  | some _ =>
      let frags := frags_from_events dirs (collision_events w.bullets w.asteroids) 0
      { w with
        bullets := w.bullets.filter fun b =>
          ! w.asteroids.any fun a => bullet_hits b.pos a.pos a.size,
        asteroids :=
          (w.asteroids.filter fun a =>
            ! w.bullets.any fun b => bullet_hits b.pos a.pos a.size) ++
            assign_ids w.nextId frags,
        nextId := w.nextId + frags.length }

/-- player_asteroid_collision (src/mechanics.rs lines 171-196): with a
player, if any asteroid overlaps it, despawn the player and set the next
game state to GameOver; with no player the system returns without
effect. -/
def player_asteroid_collision (w : World) : World :=
  match w.player with
  | none => w
  | some p =>
      if w.asteroids.any fun a => player_hits p.pos a.pos a.size then
        { w with player := none, state := GameState.GameOver }
      else w

/-- spawn_asteroids_over_time (src/main.rs lines 125-179): on a frame
the repeating 5 s timer finishes, spawn one Large asteroid.  Its edge
position and its centre-aimed, angle-perturbed velocity are computed
from random draws; the embedding takes the resulting position and
velocity as the oracle-supplied samples `pos` and `vel`. -/
def spawn_asteroids_over_time (fired : Bool) (pos vel : ℚ × ℚ)
    (w : World) : World :=
  if fired then
    { w with
      asteroids := w.asteroids ++ [⟨w.nextId, pos, vel, AsteroidSize.Large⟩],
      nextId := w.nextId + 1 }
  else w

/-- The window access of spawn_asteroids_over_time: the system ticks its
timer, and on a frame the timer finished it calls
`windows.single().unwrap()`, which panics when no window exists. -/
def spawn_asteroids_over_time_guard (fired : Bool) (ow : Option Window) :
    Except Unit Unit :=
  if fired then
    match ow with
    | none => Except.error ()
    | some _ => Except.ok ()
  else Except.ok ()

/-- The window access of spawn_initial_asteroids (src/asteroid.rs line
62): `windows.single().unwrap()` panics when no window exists. -/
def spawn_initial_asteroids_guard (ow : Option Window) : Except Unit Unit :=
  match ow with
  | none => Except.error ()
  | some _ => Except.ok ()

/-- The box a seeding sample is drawn from (src/asteroid.rs lines
68-69): `gen_range(-w/2..w/2)` and `gen_range(-h/2..h/2)`, each a
half-open interval. -/
def in_window_box (w h : ℚ) (p : ℚ × ℚ) : Prop :=
  -(w / 2) ≤ p.1 ∧ p.1 < w / 2 ∧ -(h / 2) ≤ p.2 ∧ p.2 < h / 2

/-- The acceptance test of the seeding loop (src/asteroid.rs line 73):
the loop breaks exactly when the sampled position is strictly farther
than MIN_SPAWN_DISTANCE from the centre. -/
def seed_accepts (p : ℚ × ℚ) : Prop :=
  distance_gt p (0, 0) MIN_SPAWN_DISTANCE

/-- The seeding loop of spawn_initial_asteroids (src/asteroid.rs lines
67-76) has no retry cap: after `k` samples it is still running exactly
when all of them were rejected. -/
def seed_loop_running (samples : ℕ → ℚ × ℚ) (k : ℕ) : Prop :=
  ∀ j < k, ¬ seed_accepts (samples j)

/-- The seeding loop never exits on a sample stream in which every
sample is rejected. -/
def seed_loop_never_exits (samples : ℕ → ℚ × ℚ) : Prop :=
  ∀ k, ¬ seed_accepts (samples k)

/-- Every sample the given window can produce is rejected by the
seeding loop's acceptance test. -/
def seed_box_all_rejected (w h : ℚ) : Prop :=
  ∀ p, in_window_box w h p → ¬ seed_accepts p

/-- player_movement (src/player.rs lines 28-91) reads the input and
mutates only the player entity's rotation, velocity and translation;
since its trigonometric arithmetic touches no other entity and no claim
depends on it, the embedding takes the player update itself as a
parameter. -/
def player_movement (upd : PlayerEnt → PlayerEnt) (w : World) : World :=
  { w with player := w.player.map upd }

/-- handle_game_over_input (src/main.rs lines 230-268), including its
`run_if(in_state(GameState::GameOver))` gate from main: on a restart
edge input (Space just pressed, or gamepad South just pressed) while in
GameOver, despawn every player, bullet and asteroid entity, reset the
score to 0 and set the state to Playing; in any other state the system
does not run. -/
def handle_game_over_input (kb_space pad_south : Bool) (w : World) : World :=
  if w.state = GameState.GameOver then
    if kb_space || pad_south then
      { w with
        player := none,
        bullets := [],
        asteroids := [],
        score := 0,
        state := GameState.Playing }
    else w
  else w

/-- One Playing-state Update frame: the systems registered in
src/main.rs and the three plugins, composed here in their registration
listing order (player_movement, move_asteroids,
spawn_asteroids_over_time, then the MechanicsPlugin tuple).  The
registration itself enforces no order; see the scheduling theorems. -/
def update_frame (win : Window) (dt : ℚ) (fired sFired : Bool)
    (sPos sVel : ℚ × ℚ) (dirs : ℕ → ℚ × ℚ) (pUpd : PlayerEnt → PlayerEnt)
    (w : World) : World :=
  player_asteroid_collision
    (bullet_asteroid_collision (some win) dirs
      (despawn_out_of_bounds_bullets (some win)
        (wrap_around_screen (some win)
          (despawn_bullets dt
            (move_bullets dt
              (spawn_bullet fired
                (spawn_asteroids_over_time sFired sPos sVel
                  (move_asteroids dt
                    (player_movement pUpd w)))))))))

/-- The per-frame simulation systems named in the Update-schedule
registrations of src/main.rs and the three plugins. -/
inductive SystemId
  | spawn_bullet
  | move_bullets
  | despawn_bullets
  | wrap_around_screen
  | despawn_out_of_bounds_bullets
  | bullet_asteroid_collision
  | player_asteroid_collision
  | move_asteroids
  | player_movement
  | spawn_asteroids_over_time
deriving DecidableEq

/-- The MechanicsPlugin registration (src/mechanics.rs lines 200-211):
a plain system tuple added to Update under run_if(Playing). -/
def mechanics_update_systems : List SystemId :=
  [SystemId.spawn_bullet, SystemId.move_bullets, SystemId.despawn_bullets,
   SystemId.wrap_around_screen, SystemId.despawn_out_of_bounds_bullets,
   SystemId.bullet_asteroid_collision, SystemId.player_asteroid_collision]

/-- All Playing-gated Update systems: the mechanics tuple plus
move_asteroids (AsteroidPlugin), player_movement (PlayerPlugin) and
spawn_asteroids_over_time (main), each added separately. -/
def playing_update_systems : List SystemId :=
  mechanics_update_systems ++
    [SystemId.move_asteroids, SystemId.player_movement,
     SystemId.spawn_asteroids_over_time]

/-- The explicit ordering constraints the source places on its Update
systems: none — no call to chain, before or after appears in any
add_systems registration. -/
def update_ordering_constraints : List (SystemId × SystemId) := []

/-- Whether the registration forces system `a` to run before system
`b` within a frame. -/
def enforced_before (a b : SystemId) : Bool :=
  decide ((a, b) ∈ update_ordering_constraints)

/-- Iterated Timer::tick: the timer after `k` frames of fixed delta. -/
def tickN (dt : ℚ) : ℕ → Timer → Timer
  | 0, t => t
  | k + 1, t => (tickN dt k t).tick dt

/-- A Playing world holding exactly one bullet with a fresh lifetime
timer of duration `L`, used to state the projectile-lifetime claim. -/
def lone_bullet_world (p v : ℚ × ℚ) (i : ℕ) (L : ℚ) : World :=
  ⟨GameState.Playing, 0, none, [], [⟨i, p, v, ⟨L, 0⟩⟩], i + 1⟩

/-- Frame condition between a world and a later world: every asteroid of
the later world is either a pre-existing asteroid with its velocity and
size unchanged, or a freshly spawned entity (id at or above the earlier
fresh-id mark); likewise every bullet keeps its velocity unless freshly
spawned; and the fresh-id mark never decreases. -/
def preserves_entities (w w2 : World) : Prop :=
  (∀ a2 ∈ w2.asteroids,
    (∃ a ∈ w.asteroids, a.id = a2.id ∧ a2.vel = a.vel ∧ a2.size = a.size) ∨
      w.nextId ≤ a2.id) ∧
  (∀ b2 ∈ w2.bullets,
    (∃ b ∈ w.bullets, b.id = b2.id ∧ b2.vel = b.vel) ∨ w.nextId ≤ b2.id) ∧
  w.nextId ≤ w2.nextId

/-- A Playing world with one Small asteroid and one bullet overlapping
it, used to exercise a destroy-by-collision frame concretely. -/
def kill_frame_world : World :=
  ⟨GameState.Playing, 7, none,
   [⟨0, (0, 0), (0, 0), AsteroidSize.Small⟩],
   [⟨1, (0, 0), (0, 0), ⟨BULLET_LIFETIME, 0⟩⟩], 2⟩

/-- A Playing world with one drifting Large asteroid and nothing else,
used to exercise a collision-free frame concretely. -/
def drift_frame_world : World :=
  ⟨GameState.Playing, 0, none, [⟨0, (0, 0), (3, 4), AsteroidSize.Large⟩], [], 1⟩

/-- Bridge between the squared executable comparison and the real
square-root comparison the source performs. -/
theorem distance_lt_iff (p q : ℚ × ℚ) (c : ℚ) (hc : 0 < c) :
    distance_lt p q c ↔ dist_sq p q < c ^ 2 := by
  unfold distance_lt dist_sq
  rw [Real.sqrt_lt' (by exact_mod_cast hc)]
  norm_cast

/-- Bridge for the other direction of comparison. -/
theorem distance_gt_iff (p q : ℚ × ℚ) (c : ℚ) (hc : 0 ≤ c) :
    distance_gt p q c ↔ c ^ 2 < dist_sq p q := by
  unfold distance_gt dist_sq
  rw [Real.lt_sqrt (by exact_mod_cast hc)]
  norm_cast

/-- The executable bullet-asteroid test agrees with the source's
distance comparison. -/
theorem bullet_hits_iff (b a : ℚ × ℚ) (s : AsteroidSize) :
    bullet_hits b a s = true ↔ distance_lt b a (10 / 2 + asteroid_current_size s / 2) := by
  rw [distance_lt_iff _ _ _ (by cases s <;> norm_num [asteroid_current_size])]
  simp [bullet_hits]

/-- The executable player-asteroid test agrees with the source's
distance comparison. -/
theorem player_hits_iff (p a : ℚ × ℚ) (s : AsteroidSize) :
    player_hits p a s = true ↔ distance_lt p a (50 / 2 + asteroid_current_size s / 2) := by
  rw [distance_lt_iff _ _ _ (by cases s <;> norm_num [asteroid_current_size])]
  simp [player_hits]

/-- Modelled from the spec: the fixed Player collision diameter
(50 units) of the spec's radius table in section 4.5. -/
def spec_diameter_player : ℚ := 50

/-- Modelled from the spec: the fixed Projectile collision diameter
(10 units) of the spec's radius table in section 4.5. -/
def spec_diameter_projectile : ℚ := 10

/-- Modelled from the spec: the SizeClass diameter table of section 3
(Large 80, Medium 40, Small 20). -/
def spec_asteroid_diameter : AsteroidSize → ℚ
  | AsteroidSize.Large => 80
  | AsteroidSize.Medium => 40
  | AsteroidSize.Small => 20

/-- C1: a destroyed Large asteroid yields exactly 2 Medium byproducts at
the Medium speed constant, a destroyed Medium asteroid yields exactly 2
Small byproducts at the Small speed constant, and a destroyed Small
asteroid yields none; every byproduct spawns at the destroyed asteroid's
pre-removal position with the independently drawn random heading, and
the byproducts do not depend on the parent's velocity. -/
theorem c1_fragmentation_policy :
    (∀ (i : ℕ) (pos vel d1 d2 : ℚ × ℚ),
      destroyed_byproducts ⟨i, pos, vel, AsteroidSize.Large⟩ d1 d2 =
        [(AsteroidSize.Medium, pos,
            (d1.1 * ASTEROID_MEDIUM_SPEED, d1.2 * ASTEROID_MEDIUM_SPEED)),
         (AsteroidSize.Medium, pos,
            (d2.1 * ASTEROID_MEDIUM_SPEED, d2.2 * ASTEROID_MEDIUM_SPEED))]) ∧
    (∀ (i : ℕ) (pos vel d1 d2 : ℚ × ℚ),
      destroyed_byproducts ⟨i, pos, vel, AsteroidSize.Medium⟩ d1 d2 =
        [(AsteroidSize.Small, pos,
            (d1.1 * ASTEROID_SMALL_SPEED, d1.2 * ASTEROID_SMALL_SPEED)),
         (AsteroidSize.Small, pos,
            (d2.1 * ASTEROID_SMALL_SPEED, d2.2 * ASTEROID_SMALL_SPEED))]) ∧
    (∀ (i : ℕ) (pos vel d1 d2 : ℚ × ℚ),
      destroyed_byproducts ⟨i, pos, vel, AsteroidSize.Small⟩ d1 d2 = []) ∧
    (∀ (a : AsteroidEnt) (v d1 d2 : ℚ × ℚ),
      destroyed_byproducts { a with vel := v } d1 d2 =
        destroyed_byproducts a d1 d2) := by
  refine ⟨fun i pos vel d1 d2 => rfl, fun i pos vel d1 d2 => rfl,
    fun i pos vel d1 d2 => rfl, fun a v d1 d2 => ?_⟩
  cases a
  rfl

/-- C2: in both collision scans an overlap is detected exactly when the
Euclidean distance between the positions is strictly below the sum of
the half-diameters, with the spec's diameter table (Player 50,
Projectile 10, asteroids 80/40/20 by size class). -/
theorem c2_collision_predicate :
    (∀ (b a : ℚ × ℚ) (s : AsteroidSize),
      bullet_hits b a s = true ↔
        distance_lt b a (spec_diameter_projectile / 2 + spec_asteroid_diameter s / 2)) ∧
    (∀ (p a : ℚ × ℚ) (s : AsteroidSize),
      player_hits p a s = true ↔
        distance_lt p a (spec_diameter_player / 2 + spec_asteroid_diameter s / 2)) := by
  constructor
  · intro b a s
    have h : (10 : ℚ) / 2 + asteroid_current_size s / 2 =
        spec_diameter_projectile / 2 + spec_asteroid_diameter s / 2 := by
      cases s <;>
        norm_num [asteroid_current_size, spec_diameter_projectile, spec_asteroid_diameter]
    rw [bullet_hits_iff, h]
  · intro p a s
    have h : (50 : ℚ) / 2 + asteroid_current_size s / 2 =
        spec_diameter_player / 2 + spec_asteroid_diameter s / 2 := by
      cases s <;>
        norm_num [asteroid_current_size, spec_diameter_player, spec_asteroid_diameter]
    rw [player_hits_iff, h]

/-- C4: a restart edge input while in GameOver resets the score to 0,
despawns every player, bullet and asteroid entity, and sets the state to
Playing, all in the same transition; in any state other than GameOver
the restart system has no effect. -/
theorem c4_round_restart :
    (∀ (kb pad : Bool) (sc : ℕ) (p : Option PlayerEnt)
        (asts : List AsteroidEnt) (bs : List BulletEnt) (n : ℕ),
      handle_game_over_input kb pad ⟨GameState.GameOver, sc, p, asts, bs, n⟩ =
        if kb || pad then ⟨GameState.Playing, 0, none, [], [], n⟩
        else ⟨GameState.GameOver, sc, p, asts, bs, n⟩) ∧
    (∀ (kb pad : Bool) (sc : ℕ) (p : Option PlayerEnt)
        (asts : List AsteroidEnt) (bs : List BulletEnt) (n : ℕ),
      handle_game_over_input kb pad ⟨GameState.Playing, sc, p, asts, bs, n⟩ =
        ⟨GameState.Playing, sc, p, asts, bs, n⟩) ∧
    (∀ (kb pad : Bool) (sc : ℕ) (p : Option PlayerEnt)
        (asts : List AsteroidEnt) (bs : List BulletEnt) (n : ℕ),
      handle_game_over_input kb pad ⟨GameState.Loading, sc, p, asts, bs, n⟩ =
        ⟨GameState.Loading, sc, p, asts, bs, n⟩) := by
  refine ⟨?_, ?_, ?_⟩ <;>
    intro kb pad sc p asts bs n <;>
    cases kb <;> cases pad <;>
    simp [handle_game_over_input]

/-- C5: the wrap pass rewrites only players and asteroids (never
bullets); on each axis independently, a coordinate strictly past the
positive half-extent flips to the negative half-extent and one strictly
past the negative half-extent flips to the positive one, everything else
unchanged; with an 800 by 600 window an asteroid at (401, 0) wraps to
(-400, 0). -/
theorem c5_wrap_semantics (half c : ℚ) (h : 0 ≤ half) :
    (half < c → wrap_coord half c = -half) ∧
    (c < -half → wrap_coord half c = half) ∧
    (-half ≤ c → c ≤ half → wrap_coord half c = c) ∧
    (∀ (win : Window) (w : World),
      (wrap_around_screen (some win) w).bullets = w.bullets ∧
      (wrap_around_screen (some win) w).asteroids =
        w.asteroids.map (fun a =>
          { a with pos := wrap_pos (win.width / 2) (win.height / 2) a.pos }) ∧
      (wrap_around_screen (some win) w).player =
        w.player.map (fun p =>
          { p with pos := wrap_pos (win.width / 2) (win.height / 2) p.pos })) ∧
    wrap_pos (800 / 2) (600 / 2) ((401 : ℚ), 0) = (-400, 0) := by
  refine ⟨?_, ?_, ?_, fun win w => ⟨rfl, rfl, rfl⟩, ?_⟩
  · intro hc
    unfold wrap_coord
    rw [if_pos hc]
  · intro hc
    unfold wrap_coord
    rw [if_neg (by linarith), if_pos hc]
  · intro h1 h2
    unfold wrap_coord
    rw [if_neg (by linarith), if_neg (by linarith)]
  · norm_num [wrap_pos, wrap_coord]

/-- Witness for C5 at the spec's concrete scenario: half-width 400,
x-coordinate 401. -/
theorem c5_wrap_semantics_witness : wrap_coord 400 401 = -400 :=
  (c5_wrap_semantics 400 401 (by norm_num)).1 (by norm_num)

/-- C7 counterexample: the registration enforces no ordering between
the wrap pass and the bullet-asteroid collision pass — the systems are
added as a plain tuple with no chain, before or after constraint. -/
theorem c7_counterexample :
    enforced_before SystemId.wrap_around_screen SystemId.bullet_asteroid_collision = false := by
  simp [enforced_before, update_ordering_constraints]

/-- C7 amended: all the per-frame simulation systems are registered in
the Update schedule gated on the Playing state, but the source declares
no ordering constraint between any two of them, so the engine is free to
execute them in any order within a frame; in particular wrap-before-
collision is not enforced. -/
theorem c7_no_order_enforced :
    (∀ a b : SystemId, enforced_before a b = false) ∧
    SystemId.wrap_around_screen ∈ playing_update_systems ∧
    SystemId.bullet_asteroid_collision ∈ playing_update_systems ∧
    mechanics_update_systems =
      [SystemId.spawn_bullet, SystemId.move_bullets, SystemId.despawn_bullets,
       SystemId.wrap_around_screen, SystemId.despawn_out_of_bounds_bullets,
       SystemId.bullet_asteroid_collision, SystemId.player_asteroid_collision] := by
  refine ⟨?_, by decide, by decide, rfl⟩
  intro a b
  simp [enforced_before, update_ordering_constraints]

/-- C9 counterexample: with no window available, initial seeding and a
firing periodic spawner do not skip — they unwrap the missing window and
panic. -/
theorem c9_counterexample :
    spawn_initial_asteroids_guard none = Except.error () ∧
    spawn_asteroids_over_time_guard true none = Except.error () :=
  ⟨rfl, rfl⟩

/-- C9 amended: the wrap pass, the out-of-bounds pass and the
bullet-asteroid scan skip the frame when no window exists; bullet
spawning and the player-asteroid scan skip when no player exists; but
initial seeding, and the periodic spawner on a frame its timer fires,
unwrap the window query and panic when no window exists (a frame where
the timer does not fire is unaffected). -/
theorem c9_missing_singleton_behavior :
    (∀ (dirs : ℕ → ℚ × ℚ) (w : World),
      wrap_around_screen none w = w ∧
      despawn_out_of_bounds_bullets none w = w ∧
      bullet_asteroid_collision none dirs w = w) ∧
    (∀ (st : GameState) (sc : ℕ) (asts : List AsteroidEnt)
        (bs : List BulletEnt) (n : ℕ),
      spawn_bullet true ⟨st, sc, none, asts, bs, n⟩ = ⟨st, sc, none, asts, bs, n⟩ ∧
      player_asteroid_collision ⟨st, sc, none, asts, bs, n⟩ =
        ⟨st, sc, none, asts, bs, n⟩) ∧
    spawn_initial_asteroids_guard none = Except.error () ∧
    spawn_asteroids_over_time_guard true none = Except.error () ∧
    (∀ ow : Option Window, spawn_asteroids_over_time_guard false ow = Except.ok ()) := by
  refine ⟨fun dirs w => ⟨rfl, rfl, rfl⟩,
    fun st sc asts bs n => ⟨?_, rfl⟩, rfl, rfl, fun ow => rfl⟩
  simp [spawn_bullet]

/-- player_movement does not touch the Score resource. -/
theorem player_movement_keeps_score (u : PlayerEnt → PlayerEnt) (w : World) :
    (player_movement u w).score = w.score := rfl

/-- move_asteroids does not touch the Score resource. -/
theorem move_asteroids_keeps_score (dt : ℚ) (w : World) :
    (move_asteroids dt w).score = w.score := rfl

/-- spawn_asteroids_over_time does not touch the Score resource. -/
theorem spawn_asteroids_over_time_keeps_score (f : Bool) (p v : ℚ × ℚ) (w : World) :
    (spawn_asteroids_over_time f p v w).score = w.score := by
  cases f <;> rfl

/-- spawn_bullet does not touch the Score resource. -/
theorem spawn_bullet_keeps_score (f : Bool) (w : World) :
    (spawn_bullet f w).score = w.score := by
  unfold spawn_bullet
  cases f
  · rfl
  · cases hp : w.player <;> rfl

/-- move_bullets does not touch the Score resource. -/
theorem move_bullets_keeps_score (dt : ℚ) (w : World) :
    (move_bullets dt w).score = w.score := rfl

/-- despawn_bullets does not touch the Score resource. -/
theorem despawn_bullets_keeps_score (dt : ℚ) (w : World) :
    (despawn_bullets dt w).score = w.score := rfl

/-- wrap_around_screen does not touch the Score resource. -/
theorem wrap_around_screen_keeps_score (ow : Option Window) (w : World) :
    (wrap_around_screen ow w).score = w.score := by
  cases ow <;> rfl

/-- despawn_out_of_bounds_bullets does not touch the Score resource. -/
theorem despawn_out_of_bounds_bullets_keeps_score (ow : Option Window) (w : World) :
    (despawn_out_of_bounds_bullets ow w).score = w.score := by
  cases ow <;> rfl

/-- bullet_asteroid_collision does not touch the Score resource.  The
source's collision handler despawns and spawns, but never writes the
Score. -/
theorem bullet_asteroid_collision_keeps_score (ow : Option Window)
    (dirs : ℕ → ℚ × ℚ) (w : World) :
    (bullet_asteroid_collision ow dirs w).score = w.score := by
  cases ow <;> rfl

/-- player_asteroid_collision does not touch the Score resource. -/
theorem player_asteroid_collision_keeps_score (w : World) :
    (player_asteroid_collision w).score = w.score := by
  unfold player_asteroid_collision
  split
  · rfl
  · split <;> rfl

/-- C3 (code bug): no Playing-state system ever writes the Score, so
destroying an asteroid with a projectile leaves the score unchanged; in
a concrete collision pass in which the only bullet destroys the only
asteroid, both entities despawn and the score stays at its prior
value 7. -/
theorem c3_score_not_incremented_on_kill :
    (∀ (win : Window) (dt : ℚ) (fired sFired : Bool) (sPos sVel : ℚ × ℚ)
        (dirs : ℕ → ℚ × ℚ) (pUpd : PlayerEnt → PlayerEnt) (w : World),
      (update_frame win dt fired sFired sPos sVel dirs pUpd w).score = w.score) ∧
    (bullet_asteroid_collision (some ⟨800, 600⟩) (fun _ => (1, 0))
        kill_frame_world).asteroids = [] ∧
    (bullet_asteroid_collision (some ⟨800, 600⟩) (fun _ => (1, 0))
        kill_frame_world).bullets = [] ∧
    (bullet_asteroid_collision (some ⟨800, 600⟩) (fun _ => (1, 0))
        kill_frame_world).score = 7 ∧
    kill_frame_world.score = 7 ∧
    kill_frame_world.asteroids ≠ [] := by
  refine ⟨?_, ?_, ?_, rfl, rfl, by simp [kill_frame_world]⟩
  · intro win dt fired sFired sPos sVel dirs pUpd w
    unfold update_frame
    simp only [player_movement_keeps_score, move_asteroids_keeps_score,
      spawn_asteroids_over_time_keeps_score, spawn_bullet_keeps_score,
      move_bullets_keeps_score, despawn_bullets_keeps_score,
      wrap_around_screen_keeps_score, despawn_out_of_bounds_bullets_keeps_score,
      bullet_asteroid_collision_keeps_score, player_asteroid_collision_keeps_score]
  · norm_num [bullet_asteroid_collision, kill_frame_world, collision_events,
      frags_from_events, assign_ids, destroyed_byproducts, bullet_hits,
      dist_sq, asteroid_current_size]
  · norm_num [bullet_asteroid_collision, kill_frame_world, bullet_hits,
      dist_sq, asteroid_current_size]

/-- Entity preservation is reflexive. -/
theorem preserves_entities_refl (w : World) : preserves_entities w w :=
  ⟨fun a h => Or.inl ⟨a, h, rfl, rfl, rfl⟩, fun b h => Or.inl ⟨b, h, rfl, rfl⟩, le_rfl⟩

/-- Entity preservation composes across consecutive system passes. -/
theorem preserves_entities_trans {w1 w2 w3 : World}
    (h12 : preserves_entities w1 w2) (h23 : preserves_entities w2 w3) :
    preserves_entities w1 w3 := by
  obtain ⟨ha12, hb12, hn12⟩ := h12
  obtain ⟨ha23, hb23, hn23⟩ := h23
  refine ⟨?_, ?_, le_trans hn12 hn23⟩
  · intro a3 h3
    rcases ha23 a3 h3 with ⟨a2, h2, hid, hvel, hsz⟩ | hfresh
    · rcases ha12 a2 h2 with ⟨a1, h1, hid1, hvel1, hsz1⟩ | hfresh1
      · exact Or.inl ⟨a1, h1, by rw [hid1, hid], by rw [hvel, hvel1], by rw [hsz, hsz1]⟩
      · exact Or.inr (by rw [← hid]; exact hfresh1)
    · exact Or.inr (le_trans hn12 hfresh)
  · intro b3 h3
    rcases hb23 b3 h3 with ⟨b2, h2, hid, hvel⟩ | hfresh
    · rcases hb12 b2 h2 with ⟨b1, h1, hid1, hvel1⟩ | hfresh1
      · exact Or.inl ⟨b1, h1, by rw [hid1, hid], by rw [hvel, hvel1]⟩
      · exact Or.inr (by rw [← hid]; exact hfresh1)
    · exact Or.inr (le_trans hn12 hfresh)

/-- Every byproduct entity receives an id at or above the fresh-id mark
it was allocated from. -/
theorem assign_ids_id_le (l : List (AsteroidSize × (ℚ × ℚ) × (ℚ × ℚ))) :
    ∀ n : ℕ, ∀ x ∈ assign_ids n l, n ≤ x.id := by
  induction l with
  | nil =>
      intro n x hx
      simp [assign_ids] at hx
  | cons head rest ih =>
      intro n x hx
      obtain ⟨s, p, v⟩ := head
      rcases List.mem_cons.mp hx with rfl | hx
      · exact le_rfl
      · exact Nat.le_of_succ_le (ih (n + 1) x hx)

/-- player_movement touches only the player entity. -/
theorem pe_player_movement (u : PlayerEnt → PlayerEnt) (w : World) :
    preserves_entities w (player_movement u w) :=
  ⟨fun a h => Or.inl ⟨a, h, rfl, rfl, rfl⟩, fun b h => Or.inl ⟨b, h, rfl, rfl⟩, le_rfl⟩

/-- move_asteroids writes only asteroid positions. -/
theorem pe_move_asteroids (dt : ℚ) (w : World) :
    preserves_entities w (move_asteroids dt w) := by
  refine ⟨?_, fun b h => Or.inl ⟨b, h, rfl, rfl⟩, le_rfl⟩
  intro a2 h2
  obtain ⟨a, ha, rfl⟩ := List.mem_map.mp h2
  exact Or.inl ⟨a, ha, rfl, rfl, rfl⟩

/-- spawn_asteroids_over_time only appends a freshly-id'd asteroid. -/
theorem pe_spawn_asteroids_over_time (f : Bool) (p v : ℚ × ℚ) (w : World) :
    preserves_entities w (spawn_asteroids_over_time f p v w) := by
  cases f
  · exact preserves_entities_refl w
  · refine ⟨?_, fun b h => Or.inl ⟨b, h, rfl, rfl⟩, Nat.le_succ _⟩
    intro a2 h2
    rcases List.mem_append.mp h2 with h | h
    · exact Or.inl ⟨a2, h, rfl, rfl, rfl⟩
    · obtain rfl := List.mem_singleton.mp h
      exact Or.inr le_rfl

/-- spawn_bullet only appends a freshly-id'd bullet. -/
theorem pe_spawn_bullet (f : Bool) (w : World) :
    preserves_entities w (spawn_bullet f w) := by
  unfold spawn_bullet
  cases f
  · exact preserves_entities_refl w
  · cases hp : w.player
    · exact preserves_entities_refl w
    · refine ⟨fun a h => Or.inl ⟨a, h, rfl, rfl, rfl⟩, ?_, Nat.le_succ _⟩
      intro b2 h2
      rcases List.mem_append.mp h2 with h | h
      · exact Or.inl ⟨b2, h, rfl, rfl⟩
      · obtain rfl := List.mem_singleton.mp h
        exact Or.inr le_rfl

/-- move_bullets writes only bullet positions. -/
theorem pe_move_bullets (dt : ℚ) (w : World) :
    preserves_entities w (move_bullets dt w) := by
  refine ⟨fun a h => Or.inl ⟨a, h, rfl, rfl, rfl⟩, ?_, le_rfl⟩
  intro b2 h2
  obtain ⟨b, hb, rfl⟩ := List.mem_map.mp h2
  exact Or.inl ⟨b, hb, rfl, rfl⟩

/-- despawn_bullets writes only bullet lifetimes and removes bullets. -/
theorem pe_despawn_bullets (dt : ℚ) (w : World) :
    preserves_entities w (despawn_bullets dt w) := by
  refine ⟨fun a h => Or.inl ⟨a, h, rfl, rfl, rfl⟩, ?_, le_rfl⟩
  intro b2 h2
  obtain ⟨b, hb, rfl⟩ := List.mem_map.mp (List.mem_filter.mp h2).1
  exact Or.inl ⟨b, hb, rfl, rfl⟩

/-- wrap_around_screen writes only player and asteroid positions. -/
theorem pe_wrap_around_screen (ow : Option Window) (w : World) :
    preserves_entities w (wrap_around_screen ow w) := by
  cases ow
  · exact preserves_entities_refl w
  · refine ⟨?_, fun b h => Or.inl ⟨b, h, rfl, rfl⟩, le_rfl⟩
    intro a2 h2
    obtain ⟨a, ha, rfl⟩ := List.mem_map.mp h2
    exact Or.inl ⟨a, ha, rfl, rfl, rfl⟩

/-- despawn_out_of_bounds_bullets only removes bullets. -/
theorem pe_despawn_out_of_bounds_bullets (ow : Option Window) (w : World) :
    preserves_entities w (despawn_out_of_bounds_bullets ow w) := by
  cases ow
  · exact preserves_entities_refl w
  · exact ⟨fun a h => Or.inl ⟨a, h, rfl, rfl, rfl⟩,
      fun b h => Or.inl ⟨b, (List.mem_filter.mp h).1, rfl, rfl⟩, le_rfl⟩

/-- bullet_asteroid_collision removes entities and spawns byproducts
with fresh ids; it never edits a surviving entity. -/
theorem pe_bullet_asteroid_collision (ow : Option Window) (dirs : ℕ → ℚ × ℚ)
    (w : World) : preserves_entities w (bullet_asteroid_collision ow dirs w) := by
  cases ow
  · exact preserves_entities_refl w
  · refine ⟨?_, fun b h => Or.inl ⟨b, (List.mem_filter.mp h).1, rfl, rfl⟩,
      Nat.le_add_right _ _⟩
    intro a2 h2
    rcases List.mem_append.mp h2 with h | h
    · exact Or.inl ⟨a2, (List.mem_filter.mp h).1, rfl, rfl, rfl⟩
    · exact Or.inr (assign_ids_id_le _ _ a2 h)

/-- player_asteroid_collision touches only the player and the state. -/
theorem pe_player_asteroid_collision (w : World) :
    preserves_entities w (player_asteroid_collision w) := by
  unfold player_asteroid_collision
  split
  · exact preserves_entities_refl w
  · split
    · exact ⟨fun a h => Or.inl ⟨a, h, rfl, rfl, rfl⟩,
        fun b h => Or.inl ⟨b, h, rfl, rfl⟩, le_rfl⟩
    · exact preserves_entities_refl w

/-- C10: across a whole Playing frame, every asteroid present afterwards
is either a pre-existing asteroid with its velocity and size unchanged
or a freshly spawned entity, and every bullet present afterwards is
either a pre-existing bullet with its velocity unchanged or freshly
spawned — no per-frame system edits a velocity in place. -/
theorem c10_velocity_constancy (win : Window) (dt : ℚ) (fired sFired : Bool)
    (sPos sVel : ℚ × ℚ) (dirs : ℕ → ℚ × ℚ) (pUpd : PlayerEnt → PlayerEnt)
    (w : World) :
    (∀ a2 ∈ (update_frame win dt fired sFired sPos sVel dirs pUpd w).asteroids,
      (∃ a ∈ w.asteroids, a.id = a2.id ∧ a2.vel = a.vel ∧ a2.size = a.size) ∨
        w.nextId ≤ a2.id) ∧
    (∀ b2 ∈ (update_frame win dt fired sFired sPos sVel dirs pUpd w).bullets,
      (∃ b ∈ w.bullets, b.id = b2.id ∧ b2.vel = b.vel) ∨ w.nextId ≤ b2.id) := by
  have h : preserves_entities w (update_frame win dt fired sFired sPos sVel dirs pUpd w) := by
    unfold update_frame
    exact preserves_entities_trans (pe_player_movement pUpd w)
      (preserves_entities_trans (pe_move_asteroids dt _)
        (preserves_entities_trans (pe_spawn_asteroids_over_time sFired sPos sVel _)
          (preserves_entities_trans (pe_spawn_bullet fired _)
            (preserves_entities_trans (pe_move_bullets dt _)
              (preserves_entities_trans (pe_despawn_bullets dt _)
                (preserves_entities_trans (pe_wrap_around_screen (some win) _)
                  (preserves_entities_trans (pe_despawn_out_of_bounds_bullets (some win) _)
                    (preserves_entities_trans (pe_bullet_asteroid_collision (some win) dirs _)
                      (pe_player_asteroid_collision _)))))))))
  exact ⟨h.1, h.2.1⟩

/-- Witness for C10 on a concrete frame: a lone Large asteroid drifts
from the origin with velocity (3, 4) for one second and survives the
frame with its velocity intact. -/
theorem c10_velocity_constancy_witness :
    ((⟨0, (3, 4), (3, 4), AsteroidSize.Large⟩ : AsteroidEnt) ∈
      (update_frame ⟨800, 600⟩ 1 false false (0, 0) (0, 0) (fun _ => (1, 0)) id
        drift_frame_world).asteroids) ∧
    ((∃ a ∈ drift_frame_world.asteroids,
        a.id = (⟨0, (3, 4), (3, 4), AsteroidSize.Large⟩ : AsteroidEnt).id ∧
        (⟨0, (3, 4), (3, 4), AsteroidSize.Large⟩ : AsteroidEnt).vel = a.vel ∧
        (⟨0, (3, 4), (3, 4), AsteroidSize.Large⟩ : AsteroidEnt).size = a.size) ∨
      drift_frame_world.nextId ≤ (⟨0, (3, 4), (3, 4), AsteroidSize.Large⟩ : AsteroidEnt).id) := by
  have hmem : (⟨0, (3, 4), (3, 4), AsteroidSize.Large⟩ : AsteroidEnt) ∈
      (update_frame ⟨800, 600⟩ 1 false false (0, 0) (0, 0) (fun _ => (1, 0)) id
        drift_frame_world).asteroids := by
    norm_num [update_frame, player_movement, move_asteroids, spawn_asteroids_over_time,
      spawn_bullet, move_bullets, despawn_bullets, wrap_around_screen,
      despawn_out_of_bounds_bullets, bullet_asteroid_collision, player_asteroid_collision,
      drift_frame_world, collision_events, frags_from_events, assign_ids,
      destroyed_byproducts, bullet_hits, player_hits, dist_sq, asteroid_current_size,
      wrap_pos, wrap_coord, out_of_bounds, Timer.tick, Timer.finished]
  exact ⟨hmem, (c10_velocity_constancy ⟨800, 600⟩ 1 false false (0, 0) (0, 0)
    (fun _ => (1, 0)) id drift_frame_world).1 _ hmem⟩

/-- Ticking never changes a timer's duration. -/
theorem tickN_duration (dt : ℚ) (k : ℕ) (t : Timer) :
    (tickN dt k t).duration = t.duration := by
  induction k with
  | zero => rfl
  | succ k ih => simp [tickN, Timer.tick, ih]

/-- Elapsed time of a fresh timer after `k` ticks of a nonnegative
delta: `k * dt`, clamped at the duration. -/
theorem tickN_elapsed (dt L : ℚ) (hdt : 0 ≤ dt) (hL : 0 ≤ L) (k : ℕ) :
    (tickN dt k ⟨L, 0⟩).elapsed = min ((k : ℚ) * dt) L := by
  induction k with
  | zero =>
      show (0 : ℚ) = min (((0 : ℕ) : ℚ) * dt) L
      rw [Nat.cast_zero, zero_mul, min_eq_left hL]
  | succ k ih =>
      have hd : (tickN dt k ⟨L, 0⟩).duration = L := tickN_duration dt k _
      show min ((tickN dt k ⟨L, 0⟩).elapsed + dt) ((tickN dt k ⟨L, 0⟩).duration) =
        min (((k + 1 : ℕ) : ℚ) * dt) L
      rw [ih, hd]
      have hk : (((k + 1 : ℕ)) : ℚ) * dt = (k : ℚ) * dt + dt := by push_cast; ring
      rw [hk]
      rcases le_total ((k : ℚ) * dt) L with h | h
      · rw [min_eq_left h]
      · rw [min_eq_right h, min_eq_right (by linarith : L ≤ L + dt),
          min_eq_right (by linarith : L ≤ (k : ℚ) * dt + dt)]

/-- A fresh timer of positive duration `L`, ticked `k` times by a
positive delta, reports finished exactly from tick number
`ceil (L / dt)` on. -/
theorem tickN_finished_iff (dt L : ℚ) (hdt : 0 < dt) (hL : 0 < L) (k : ℕ) :
    ((tickN dt k ⟨L, 0⟩).finished = true ↔ Nat.ceil (L / dt) ≤ k) := by
  have he := tickN_elapsed dt L hdt.le hL.le k
  have hd := tickN_duration dt k (⟨L, 0⟩ : Timer)
  simp only [Timer.finished, decide_eq_true_eq]
  rw [hd, he]
  constructor
  · intro h
    have h1 : L ≤ (k : ℚ) * dt := (le_min_iff.mp h).1
    exact Nat.ceil_le.mpr (by rw [div_le_iff₀ hdt]; linarith)
  · intro h
    have h1 : L / dt ≤ (k : ℚ) := Nat.ceil_le.mp h
    have h2 : L ≤ (k : ℚ) * dt := by
      rw [div_le_iff₀ hdt] at h1
      linarith
    exact le_min h2 le_rfl

/-- The despawn pass commutes with any rewrite of bullet positions: its
removal decision reads only the lifetime timer, never where the bullet
is. -/
theorem despawn_filter_map_pos_commute (dt : ℚ) (f : ℚ × ℚ → ℚ × ℚ)
    (bs : List BulletEnt) :
    ((bs.map fun b => { b with pos := f b.pos }).map
        fun b => { b with lifetime := b.lifetime.tick dt }).filter
      (fun b => ! b.lifetime.finished) =
    ((bs.map fun b => { b with lifetime := b.lifetime.tick dt }).filter
        fun b => ! b.lifetime.finished).map
      fun b => { b with pos := f b.pos } := by
  rw [List.map_map, List.filter_map, List.filter_map, List.map_map]
  rfl

/-- The one-bullet world after `k` despawn passes: the bullet is intact
with its ticked timer until tick `ceil (L / dt)` and despawned from then
on. -/
theorem despawn_bullets_bullets (dt : ℚ) (w : World) :
    (despawn_bullets dt w).bullets =
      (w.bullets.map fun b => { b with lifetime := b.lifetime.tick dt }).filter
        fun b => ! b.lifetime.finished := rfl

/-- The one-bullet world after `k` despawn passes: the bullet is intact
with its ticked timer until tick `ceil (L / dt)` and despawned from then
on. -/
theorem despawn_bullets_iterate (dt L : ℚ) (p v : ℚ × ℚ) (i : ℕ)
    (hdt : 0 < dt) (hL : 0 < L) (k : ℕ) :
    ((despawn_bullets dt)^[k] (lone_bullet_world p v i L)).bullets =
      if Nat.ceil (L / dt) ≤ k then []
      else [⟨i, p, v, tickN dt k ⟨L, 0⟩⟩] := by
  induction k with
  | zero =>
      rw [Function.iterate_zero_apply]
      have hpos : 0 < Nat.ceil (L / dt) := Nat.ceil_pos.mpr (div_pos hL hdt)
      rw [if_neg (by omega)]
      rfl
  | succ k ih =>
      rw [Function.iterate_succ_apply', despawn_bullets_bullets, ih]
      by_cases hck : Nat.ceil (L / dt) ≤ k
      · rw [if_pos hck, if_pos (by omega)]
        rfl
      · rw [if_neg hck]
        have hmap : (([⟨i, p, v, tickN dt k ⟨L, 0⟩⟩] : List BulletEnt).map
            (fun b => { b with lifetime := b.lifetime.tick dt })) =
            [⟨i, p, v, tickN dt (k + 1) ⟨L, 0⟩⟩] := rfl
        rw [hmap, List.filter_singleton]
        by_cases hck1 : Nat.ceil (L / dt) ≤ k + 1
        · rw [if_pos hck1]
          have hfin : (tickN dt (k + 1) ⟨L, 0⟩).finished = true :=
            (tickN_finished_iff dt L hdt hL (k + 1)).mpr hck1
          simp [hfin]
        · rw [if_neg hck1]
          have hfin : (tickN dt (k + 1) ⟨L, 0⟩).finished = false := by
            cases h : (tickN dt (k + 1) ⟨L, 0⟩).finished
            · rfl
            · exact absurd ((tickN_finished_iff dt L hdt hL (k + 1)).mp h) hck1
          simp [hfin]

/-- C6: a bullet spawned with lifetime budget `L` and aged by a fixed
delta `dt` per frame survives exactly the first `ceil (L / dt) - 1`
despawn passes and is removed on pass `ceil (L / dt)`; its remaining
lifetime is never negative; each tick decrements the remaining lifetime
by `dt` (clamped at zero); and the lifetime-despawn pass ignores bullet
positions entirely, so removal by expiry is independent of whether the
bullet left the play area. -/
theorem c6_projectile_lifetime (L dt : ℚ) (p v : ℚ × ℚ) (i : ℕ)
    (hL : 0 < L) (hdt : 0 < dt) :
    (∀ k, ((despawn_bullets dt)^[k] (lone_bullet_world p v i L)).bullets =
      if Nat.ceil (L / dt) ≤ k then []
      else [⟨i, p, v, tickN dt k ⟨L, 0⟩⟩]) ∧
    (∀ k, 0 ≤ (tickN dt k ⟨L, 0⟩).remaining) ∧
    (∀ t : Timer, (t.tick dt).remaining = max (t.remaining - dt) 0) ∧
    (∀ (w : World) (f : ℚ × ℚ → ℚ × ℚ),
      (despawn_bullets dt
          { w with bullets := w.bullets.map fun b => { b with pos := f b.pos } }).bullets =
        (despawn_bullets dt w).bullets.map fun b => { b with pos := f b.pos }) := by
  refine ⟨despawn_bullets_iterate dt L p v i hdt hL, ?_, ?_, ?_⟩
  · intro k
    show (0 : ℚ) ≤ (tickN dt k ⟨L, 0⟩).duration - (tickN dt k ⟨L, 0⟩).elapsed
    rw [tickN_duration, tickN_elapsed dt L hdt.le hL.le]
    have := min_le_right ((k : ℚ) * dt) L
    linarith
  · intro t
    show t.duration - min (t.elapsed + dt) t.duration = max (t.duration - t.elapsed - dt) 0
    rcases le_total (t.elapsed + dt) t.duration with h | h
    · rw [min_eq_left h, max_eq_left (by linarith)]
      ring
    · rw [min_eq_right h, max_eq_right (by linarith)]
      ring
  · intro w f
    exact despawn_filter_map_pos_commute dt f w.bullets

/-- Witness for C6 with the constants of the spec's scenario family:
lifetime 2 s, delta one half second, removal on tick 4 and survival
through tick 3. -/
theorem c6_projectile_lifetime_witness :
    ((despawn_bullets (1 / 2))^[4] (lone_bullet_world (0, 0) (0, 0) 0 2)).bullets = [] ∧
    ((despawn_bullets (1 / 2))^[3] (lone_bullet_world (0, 0) (0, 0) 0 2)).bullets =
      [⟨0, (0, 0), (0, 0), tickN (1 / 2) 3 ⟨2, 0⟩⟩] := by
  have h := (c6_projectile_lifetime 2 (1 / 2) (0, 0) (0, 0) 0 (by norm_num) (by norm_num)).1
  have h4 : ((2 : ℚ) / (1 / 2)) = 4 := by norm_num
  have hc : Nat.ceil ((2 : ℚ) / (1 / 2)) = 4 := by
    rw [h4]
    simp
  constructor
  · rw [h 4, if_pos (by rw [hc])]
  · rw [h 3, if_neg (by rw [hc]; omega)]

/-- A position whose squared distance from the centre is at most the
squared minimum spawn distance is rejected by the seeding loop. -/
theorem seed_rejects_of_close (p : ℚ × ℚ) (hp : dist_sq p (0, 0) ≤ MIN_SPAWN_DISTANCE ^ 2) :
    ¬ seed_accepts p := by
  intro hacc
  rw [seed_accepts, distance_gt_iff _ _ _ (by norm_num [MIN_SPAWN_DISTANCE])] at hacc
  linarith

/-- C8 counterexample: with a 100 by 100 window every samplable position
is rejected by the seeding loop's acceptance test, and on a sample
stream of rejected positions the loop never exits — there is no retry
cap and no fallback acceptance. -/
theorem c8_counterexample :
    seed_box_all_rejected 100 100 ∧
    seed_loop_never_exits (fun _ => ((0 : ℚ), (0 : ℚ))) := by
  constructor
  · intro p hbox
    obtain ⟨h1, h2, h3, h4⟩ := hbox
    apply seed_rejects_of_close
    have e1 : (0 : ℚ) ≤ 50 - p.1 := by linarith
    have e2 : (0 : ℚ) ≤ p.1 + 50 := by linarith
    have e3 : (0 : ℚ) ≤ 50 - p.2 := by linarith
    have e4 : (0 : ℚ) ≤ p.2 + 50 := by linarith
    have q1 : (0 : ℚ) ≤ (50 - p.1) * (p.1 + 50) := mul_nonneg e1 e2
    have q2 : (0 : ℚ) ≤ (50 - p.2) * (p.2 + 50) := mul_nonneg e3 e4
    have hd : dist_sq p (0, 0) = p.1 ^ 2 + p.2 ^ 2 := by
      simp [dist_sq]
    rw [hd]
    unfold MIN_SPAWN_DISTANCE
    nlinarith
  · intro k
    apply seed_rejects_of_close
    norm_num [dist_sq, MIN_SPAWN_DISTANCE]

/-- C8 amended: the source's seeding loop has no retry cap and no
fallback: it exits exactly when a sample farther than
MIN_SPAWN_DISTANCE from the centre is drawn, and for any window whose
half-extents satisfy (w/2)^2 + (h/2)^2 <= MIN_SPAWN_DISTANCE^2 every
samplable position is rejected, so the loop runs forever. -/
theorem c8_seeding_no_retry_cap (w h : ℚ) (samples : ℕ → ℚ × ℚ)
    (hgeo : (w / 2) ^ 2 + (h / 2) ^ 2 ≤ MIN_SPAWN_DISTANCE ^ 2)
    (hin : ∀ k, in_window_box w h (samples k)) :
    seed_loop_never_exits samples ∧ ∀ k, seed_loop_running samples k := by
  have key : ∀ k, ¬ seed_accepts (samples k) := by
    intro k
    obtain ⟨h1, h2, h3, h4⟩ := hin k
    apply seed_rejects_of_close
    have hx : ((samples k).1) ^ 2 ≤ (w / 2) ^ 2 := sq_le_sq' (by linarith) (le_of_lt h2)
    have hy : ((samples k).2) ^ 2 ≤ (h / 2) ^ 2 := sq_le_sq' (by linarith) (le_of_lt h4)
    have hd : dist_sq (samples k) (0, 0) = ((samples k).1) ^ 2 + ((samples k).2) ^ 2 := by
      simp [dist_sq]
    rw [hd]
    linarith
  exact ⟨key, fun k j hj => key j⟩

/-- Witness for C8 at the concrete 100 by 100 window with the constant
centre sample stream: the hypotheses hold and after 7 rejected samples
the loop is still running. -/
theorem c8_seeding_no_retry_cap_witness :
    seed_loop_never_exits (fun _ => ((0 : ℚ), (0 : ℚ))) ∧
    seed_loop_running (fun _ => ((0 : ℚ), (0 : ℚ))) 7 := by
  have h := c8_seeding_no_retry_cap 100 100 (fun _ => ((0 : ℚ), (0 : ℚ)))
    (by norm_num [MIN_SPAWN_DISTANCE])
    (by intro k; norm_num [in_window_box])
  exact ⟨h.1, h.2 7⟩
